import Mathlib

/-!
# Verification of the Real-ESRGAN OpenVINO pipeline (`run_fp32.py`)

A shallow embedding of the repository's single source file `run_fp32.py`:
the weight-file provisioner (`download_model`), the parameter-container
layout classification inside `export_realesrgan_to_onnx`, the two-path
ONNX→OpenVINO conversion (`convert_to_openvino` / `convert_step_by_step`)
and the GPU inference executor (`run_gpu_inference`).

External effects (network, filesystem, the OpenVINO runtime, the camera
clock) are passed in explicitly as environment records, and each embedded
function additionally returns the ordered trace of the external actions it
performed, so that claims of the form "X is never attempted" are statements
about that trace.  `cv2.resize` (with its default `INTER_LINEAR`
interpolation) is modelled concretely by exact rational bilinear
interpolation, since one claim is about the pixel content it produces.
-/

namespace RunFp32

/-! ## Images

`cv2.imread` yields an H×W×3 array of 8-bit values.  We model an image as
its two dimensions together with a total pixel function
(row → column → channel → value); out-of-range indices are irrelevant to
every statement below. -/

structure Image where
  h : Nat
  w : Nat
  px : Nat → Nat → Nat → Nat

/-- `np.zeros((h, w, 3), dtype=np.uint8)`. -/
def Image.zeros (h w : Nat) : Image := ⟨h, w, fun _ _ _ => 0⟩

/-- Round a rational to the nearest integer (half away from zero is
irrelevant here; we round half up) and clamp into `0..255`. -/
def roundClamp255 (q : ℚ) : Nat :=
  min 255 (max 0 (Int.floor (q + 1/2))).toNat

/-- Clamp a source index into `0 .. size-1` (OpenCV replicates the border
pixel). -/
def clampIdx (i : ℤ) (size : Nat) : ℤ := max 0 (min i ((size : ℤ) - 1))

/-- Bilinear resampling of channel `c` of `img` at source coordinates
`(fy, fx)`: the four clamped neighbours weighted by the fractional
parts. -/
def resample (img : Image) (c : Nat) (fy fx : ℚ) : Nat :=
  let y0 : ℤ := clampIdx (Int.floor fy) img.h
  let x0 : ℤ := clampIdx (Int.floor fx) img.w
  let y1 : ℤ := clampIdx (y0 + 1) img.h
  let x1 : ℤ := clampIdx (x0 + 1) img.w
  let wy : ℚ := max 0 (min (fy - (y0 : ℚ)) 1)
  let wx : ℚ := max 0 (min (fx - (x0 : ℚ)) 1)
  let p : ℤ → ℤ → ℚ := fun i j => (img.px i.toNat j.toNat c : ℚ)
  roundClamp255 <|
    (1 - wy) * ((1 - wx) * p y0 x0 + wx * p y0 x1) +
    wy * ((1 - wx) * p y1 x0 + wx * p y1 x1)

/-- The source coordinate a destination index maps to:
`(dst + 1/2) * srcSize/dstSize - 1/2`. -/
def srcCoord (dst srcSize dstSize : Nat) : ℚ :=
  ((dst : ℚ) + 1/2) * (srcSize : ℚ) / (dstSize : ℚ) - 1/2

/-- Model of `cv2.resize(img, (newW, newH))` with the default
`INTER_LINEAR` interpolation, by exact rational bilinear interpolation
(standing in for OpenCV's fixed-point arithmetic). -/
def cv2resize (img : Image) (newW newH : Nat) : Image where
  h := newH
  w := newW
  px := fun y x c =>
    resample img c (srcCoord y img.h newH) (srcCoord x img.w newW)

/-- The executor's shape-normalization step (`run_gpu_inference`,
lines 252–259): `new_h = (h // 64) * 64`, `new_w = (w // 64) * 64`, and
`cv2.resize` is applied only when one of the two differs from the
original. -/
def normalizeShape (img : Image) : Image :=
  let new_h := (img.h / 64) * 64
  let new_w := (img.w / 64) * 64
  if new_h ≠ img.h ∨ new_w ≠ img.w then cv2resize img new_w new_h else img

/-! ## The artifact provisioner (`download_model`, lines 37–70)

The filesystem state is whether (and with how many bytes) the weight file
exists at `MODEL_PATH`.  The network's behaviour on one download attempt:
the request itself may fail (`requests.get` / `raise_for_status` raises,
before the destination file is opened), the stream may fail after `k`
bytes were already written (the `with open(MODEL_PATH, 'wb')` block has
created the file), or the download completes with `n` bytes. -/

structure FS where
  modelBytes : Option Nat
deriving DecidableEq, Repr

inductive NetBehavior where
  | connectFail
  | streamFail (k : Nat)
  | ok (n : Nat)
deriving DecidableEq, Repr

inductive DlEff where
  | transfer
deriving DecidableEq, Repr

/-- `download_model()`: succeed immediately if the file exists; otherwise
attempt one streaming download, catching any exception and returning
`False` without removing a partially written file. -/
def download_model (net : NetBehavior) (fs : FS) : Bool × FS × List DlEff :=
  if fs.modelBytes.isSome then
    (true, fs, [])
  else
    match net with
    | .connectFail => (false, fs, [.transfer])
    | .streamFail k => (false, ⟨some k⟩, [.transfer])
    | .ok n => (true, ⟨some n⟩, [.transfer])

/-! ## Parameter-container layout (`export_realesrgan_to_onnx`,
lines 98–109)

A loaded checkpoint is a Python dict; we model it as an association list
with distinct keys.  The exporter probes, in order, for the keys
`"params_ema"`, `"params"`, `"model"`, and calls
`model.load_state_dict` on the first sub-container found, falling back to
the whole container. -/

inductive Bound (α : Type) where
  | viaParamsEma (p : α)
  | viaParams (p : α)
  | viaModel (p : α)
  | flat (sd : List (String × α))
deriving DecidableEq, Repr

/-- `k in state_dict` / `state_dict[k]` on a dict modelled as an
association list. -/
def dictGet? {α : Type} (sd : List (String × α)) (k : String) : Option α :=
  (sd.find? (fun kv => kv.1 = k)).map (·.2)

/-- The ordered layout dispatch of `export_realesrgan_to_onnx`. -/
def bindStateDict {α : Type} (sd : List (String × α)) : Bound α :=
  match dictGet? sd "params_ema" with
  | some p => .viaParamsEma p
  | none =>
    match dictGet? sd "params" with
    | some p => .viaParams p
    | none =>
      match dictGet? sd "model" with
      | some p => .viaModel p
      | none => .flat sd

/-! ## The two-path hardware compilation (`convert_to_openvino`,
lines 150–174, and `convert_step_by_step`, lines 177–208)

An OpenVINO model is abstracted to what the conversion code inspects: the
partial shape of its sole input, a list of dimensions each either dynamic
or fixed (OpenVINO's `Dimension(-1)` *is* the dynamic dimension, so
"set the axis to −1" is modelled as setting it dynamic).  The runtime
itself is an environment: `ov.convert_model` and `core.read_model` may
raise, as may each `ov.save_model`, and after a save the expected `.xml`
file may or may not have materialized. -/

inductive Dim where
  | dynamic
  | fixed (n : Nat)
deriving DecidableEq, Repr

def Dim.isDynamic : Dim → Bool
  | .dynamic => true
  | .fixed _ => false

structure OVModel where
  inputShape : List Dim
deriving DecidableEq, Repr

/-- `partial_shape[2] = -1; partial_shape[3] = -1` followed by
`model.reshape`. -/
def setDynamicHW (s : List Dim) : List Dim :=
  (s.set 2 .dynamic).set 3 .dynamic

structure ConvEnv where
  /-- `ov.convert_model(onnx_path)`. -/
  convert : Except String OVModel
  /-- `ov.save_model(ov_model, xml_path, compress_to_fp16=True)`. -/
  savePrimary : OVModel → Except String Unit
  /-- `os.path.exists(xml_path)` after the primary save. -/
  existsAfterPrimary : Bool
  /-- `core.read_model(onnx_path)` in the fallback. -/
  readModel : Except String OVModel
  /-- `ov.save_model(model, xml_path, compress_to_fp16=False)`. -/
  saveStep : OVModel → Except String Unit
  /-- `os.path.exists(xml_path)` after the fallback save. -/
  existsAfterStep : Bool

inductive ConvEff where
  | convert
  | save (compressToFp16 : Bool)
  | readModel
  | reshape (s : List Dim)
deriving DecidableEq, Repr

/-- `partial_shape[i]` of an input layer's partial shape. -/
def dimAt (s : List Dim) (i : Nat) : Dim := s.getD i (.fixed 0)

/-- `convert_step_by_step(onnx_path, xml_path)`: read the graph with the
runtime's native reader, mark input axes 2 and 3 dynamic unless both
already are, save at full precision, and report the path only if the file
materialized.  Any raise is caught and reported as `None`. -/
def convert_step_by_step (env : ConvEnv) : Option Unit × List ConvEff :=
  match env.readModel with
  | .error _ => (none, [.readModel])
  | .ok m =>
    if (dimAt m.inputShape 2).isDynamic ∧ (dimAt m.inputShape 3).isDynamic then
      match env.saveStep m with
      | .error _ => (none, [.readModel, .save false])
      | .ok _ =>
        (if env.existsAfterStep then some () else none,
         [.readModel, .save false])
    else
      let m' : OVModel := ⟨setDynamicHW m.inputShape⟩
      match env.saveStep m' with
      | .error _ => (none, [.readModel, .reshape m'.inputShape, .save false])
      | .ok _ =>
        (if env.existsAfterStep then some () else none,
         [.readModel, .reshape m'.inputShape, .save false])

/-- `convert_to_openvino(onnx_path)`: try the direct conversion saved with
fp16 weight compression; if that whole block raises, fall back to
`convert_step_by_step`.  When the primary block completes without raising
but the file is absent, the function returns `None` directly. -/
def convert_to_openvino (env : ConvEnv) : Option Unit × List ConvEff :=
  match env.convert with
  | .error _ =>
    let r := convert_step_by_step env
    (r.1, .convert :: r.2)
  | .ok m =>
    match env.savePrimary m with
    | .error _ =>
      let r := convert_step_by_step env
      (r.1, .convert :: .save true :: r.2)
    | .ok _ =>
      (if env.existsAfterPrimary then some () else none,
       [.convert, .save true])

/-! ## Tensors, preprocessing and postprocessing
(`run_gpu_inference`, lines 262–267 and 313–317) -/

/-- A rank-4 float tensor (batch, channel, row, column), as produced by
preprocessing and returned by the network. -/
structure Tensor4 where
  n : Nat
  c : Nat
  h : Nat
  w : Nat
  data : Nat → Nat → Nat → Nat → ℚ

/-- Preprocessing: `img.astype(np.float32) / 255.0`, then
`np.transpose(..., (2, 0, 1))`, then `np.expand_dims(..., axis=0)`. -/
def preprocess (img : Image) : Tensor4 where
  n := 1
  c := 3
  h := img.h
  w := img.w
  data := fun _ c y x => (img.px y x c : ℚ) / 255

/-- `np.squeeze(result, axis=0)` as an indexing map: the rank-3 view of a
rank-4 tensor at batch index 0. -/
def npSqueeze0 (t : Tensor4) : Nat → Nat → Nat → ℚ :=
  fun c y x => t.data 0 c y x

/-- `np.transpose(a, (1, 2, 0))` on a rank-3 array. -/
def npTranspose120 (a : Nat → Nat → Nat → ℚ) : Nat → Nat → Nat → ℚ :=
  fun y x c => a c y x

/-- `np.clip(v, lo, hi)`. -/
def npClip (lo hi v : ℚ) : ℚ := min (max v lo) hi

/-- `.astype(np.uint8)` applied to a clipped non-negative float:
truncation toward zero. -/
def toUint8 (q : ℚ) : Nat := (Int.floor q).toNat

/-- Postprocessing of the raw result tensor:
`np.squeeze(result, axis=0)`, `np.transpose(..., (1, 2, 0))`,
`np.clip(... * 255, 0, 255).astype(np.uint8)` — an H×W×C 8-bit image. -/
def postprocess (t : Tensor4) : Image where
  h := t.h
  w := t.w
  px := fun y x c =>
    toUint8 (npClip 0 255 (npTranspose120 (npSqueeze0 t) y x c * 255))

/-! ## The inference executor (`run_gpu_inference`, lines 212–350)

The environment carries every external dependency the function touches:
the device enumeration, the model reader, `cv2.imread`, `cv2.putText`
(glyph rendering is opaque; only that the placeholder is the text overlay
applied to a 256×256 zero image matters), the device compiler, the
network's forward pass, and `time.time()` as a sequence of clock readings
indexed by call order (the success path makes exactly 24 readings). -/

structure RunEnv where
  /-- `core.available_devices`. -/
  devices : List String
  /-- `core.read_model(ov_model_path)`. -/
  readModel : Except String OVModel
  /-- `cv2.imread(input_image_path)`; `none` when unreadable. -/
  imread : Option Image
  /-- `cv2.putText(img, "GPU Test", (50, 128), ...)`. -/
  putText : Image → Image
  /-- `core.compile_model(model, device, config)` plus
  `create_infer_request()`. -/
  compile : OVModel → String → Except String Unit
  /-- `infer_request.infer(...)` followed by
  `get_output_tensor(...).data`: the network's forward pass. -/
  infer : Tensor4 → Except String Tensor4
  /-- Successive `time.time()` readings. -/
  clock : Nat → ℚ

inductive RunEff where
  | readModel
  | imread
  | compileModel (device : String)
  | inferRun
  | imwrite
deriving DecidableEq, Repr

structure RunResult where
  success : Bool
  trace : List RunEff
  timings : Option (List (String × ℚ))
  output : Option Image

/-- The stage names of the final timing report, in print order
(lines 329–341). -/
def stageNames : List String :=
  ["image_load", "resize", "preprocess", "reshape", "config",
   "compile", "inference", "get_results", "postprocess", "save", "total"]

/-- Bind a dynamic input shape to the ingested image's concrete height and
width (lines 274–281): only when the partial shape is dynamic at all,
axes 2 and 3 are overwritten and the model reshaped. -/
def reconcileShape (m : OVModel) (img : Image) : OVModel :=
  if m.inputShape.any Dim.isDynamic then
    ⟨(m.inputShape.set 2 (.fixed img.h)).set 3 (.fixed img.w)⟩
  else m

/-- `run_gpu_inference(ov_model_path, input_image_path,
output_image_path)`.  Failure of any environment operation models the
corresponding Python exception, caught by the surrounding `try` which
prints and returns `False`; the device check returns `False` without
raising.  The timing record exists only on the success path. -/
def run_gpu_inference (env : RunEnv) : RunResult :=
  let t0 := env.clock 0
  if "GPU" ∈ env.devices then
    match env.readModel with
    | .error _ => ⟨false, [.readModel], none, none⟩
    | .ok model =>
      let img :=
        match env.imread with
        | some i => i
        | none => env.putText (Image.zeros 256 256)
      let img := normalizeShape img
      let input_data := preprocess img
      let model := reconcileShape model img
      match env.compile model "GPU" with
      | .error _ => ⟨false, [.readModel, .imread], none, none⟩
      | .ok _ =>
        match env.infer input_data with
        | .error _ =>
          ⟨false, [.readModel, .imread, .compileModel "GPU"], none, none⟩
        | .ok result =>
          let out := postprocess result
          let timings :=
            [("image_load", env.clock 4 - env.clock 3),
             ("resize", env.clock 6 - env.clock 5),
             ("preprocess", env.clock 8 - env.clock 7),
             ("reshape", env.clock 10 - env.clock 9),
             ("config", env.clock 12 - env.clock 11),
             ("compile", env.clock 14 - env.clock 13),
             ("inference", env.clock 16 - env.clock 15),
             ("get_results", env.clock 18 - env.clock 17),
             ("postprocess", env.clock 20 - env.clock 19),
             ("save", env.clock 22 - env.clock 21),
             ("total", env.clock 23 - t0)]
          ⟨true,
           [.readModel, .imread, .compileModel "GPU", .inferRun, .imwrite],
           some timings, some out⟩
  else
    ⟨false, [], none, none⟩

/-! ## Concrete instances used to exercise the embedding -/

/-- A 65×64 image whose bottom row is white and all other rows black:
its height is not a multiple of 64, so the executor rescales it. -/
def img65 : Image := ⟨65, 64, fun y _ _ => if y = 64 then 255 else 0⟩

/-- The exported graph's input shape: batch 1, 3 channels, dynamic
height/width. -/
def shapeDyn : List Dim := [.fixed 1, .fixed 3, .dynamic, .dynamic]

/-- A conversion run whose primary path completes without raising but whose
`.xml` file does not materialize. -/
def convEnvNoFile : ConvEnv where
  convert := .ok ⟨shapeDyn⟩
  savePrimary := fun _ => .ok ()
  existsAfterPrimary := false
  readModel := .error "unused"
  saveStep := fun _ => .ok ()
  existsAfterStep := true

/-- An inference run on a host whose device enumeration has no GPU. -/
def runEnvNoGpu : RunEnv where
  devices := ["CPU"]
  readModel := .ok ⟨shapeDyn⟩
  imread := none
  putText := id
  compile := fun _ _ => .ok ()
  infer := fun t => .ok t
  clock := fun _ => 0

/-- An inference run in which every runtime operation succeeds and the
input image is unreadable. -/
def runEnvOk : RunEnv := { runEnvNoGpu with devices := ["GPU"] }

/-- The timing record `runEnvOk` produces (its clock is constant, so every
stage lasts 0). -/
def recZero : List (String × ℚ) :=
  [("image_load", 0), ("resize", 0), ("preprocess", 0), ("reshape", 0),
   ("config", 0), ("compile", 0), ("inference", 0), ("get_results", 0),
   ("postprocess", 0), ("save", 0), ("total", 0)]

/-! ## Theorems -/

/-- **C2.** The exporter classifies a parameter container by probing the
keys `"params_ema"`, `"params"`, `"model"` in that fixed order and binds
with the first one present (so a container holding both `"params_ema"`
and `"params"` binds via `"params_ema"`); a container with none of the
three keys is bound as a flat parameter set. -/
theorem layout_detection_precedence {α : Type} (sd : List (String × α)) :
    (∀ p, dictGet? sd "params_ema" = some p →
      bindStateDict sd = .viaParamsEma p) ∧
    (dictGet? sd "params_ema" = none →
      (∀ p, dictGet? sd "params" = some p →
        bindStateDict sd = .viaParams p) ∧
      (dictGet? sd "params" = none →
        (∀ p, dictGet? sd "model" = some p →
          bindStateDict sd = .viaModel p) ∧
        (dictGet? sd "model" = none → bindStateDict sd = .flat sd))) := by
  unfold bindStateDict
  rcases h1 : dictGet? sd "params_ema" with _ | p1 <;>
    rcases h2 : dictGet? sd "params" with _ | p2 <;>
      rcases h3 : dictGet? sd "model" with _ | p3 <;>
        simp

/-- **C6, counterexample.** When the first provisioner call's request
itself raises (before the destination file is created), a second call is
not a no-op: both calls perform a network transfer, so "at most one
network transfer and the second call is a no-op returning success" fails
as stated. -/
theorem download_twice_counterexample :
    download_model .connectFail ⟨none⟩ = (false, ⟨none⟩, [.transfer]) ∧
    download_model (.ok 9)
        (download_model .connectFail ⟨none⟩).2.1 =
      (true, ⟨some 9⟩, [.transfer]) := by
  decide

/-- **C6, amended.** If a file already exists at the artifact path the
provisioner returns success immediately with no network transfer and no
content validation; hence whenever the first of two calls with the same
target path returns success, the second call performs no network transfer
and is a no-op returning success. -/
theorem download_cache_hit (net net' : NetBehavior) (fs : FS) :
    (fs.modelBytes.isSome → download_model net fs = (true, fs, [])) ∧
    ((download_model net fs).1 = true →
      download_model net' (download_model net fs).2.1 =
        (true, (download_model net fs).2.1, [])) := by
  rcases fs with ⟨_ | b⟩ <;> rcases net with _ | k | n <;>
    simp [download_model]

/-- **C9.** When the streaming download fails after the destination file
was opened for writing, the provisioner returns failure but leaves the
partially written file in place, and a subsequent call finds the partial
file present and returns success immediately with no transfer. -/
theorem partial_download_cached (k : Nat) (net' : NetBehavior) (fs : FS)
    (h : fs.modelBytes = none) :
    (download_model (.streamFail k) fs).1 = false ∧
    (download_model (.streamFail k) fs).2.1 = ⟨some k⟩ ∧
    download_model net' (download_model (.streamFail k) fs).2.1 =
      (true, ⟨some k⟩, []) := by
  obtain ⟨mb⟩ := fs
  cases h
  simp [download_model]

theorem partial_download_cached_witness :
    (download_model (.streamFail 5) ⟨none⟩).1 = false ∧
    (download_model (.streamFail 5) ⟨none⟩).2.1 = ⟨some 5⟩ ∧
    download_model (.ok 9) (download_model (.streamFail 5) ⟨none⟩).2.1 =
      (true, ⟨some 5⟩, []) :=
  partial_download_cached 5 (.ok 9) ⟨none⟩ rfl

/-- **C10.** If the primary conversion completes without raising but the
expected IR file does not exist, the compiler returns failure directly:
the step-by-step fallback (which would start by re-reading the graph) is
never invoked. -/
theorem no_fallback_on_missing_file (env : ConvEnv) (m : OVModel)
    (h1 : env.convert = .ok m) (h2 : env.savePrimary m = .ok ())
    (h3 : env.existsAfterPrimary = false) :
    convert_to_openvino env = (none, [.convert, .save true]) ∧
    ConvEff.readModel ∉ (convert_to_openvino env).2 := by
  simp [convert_to_openvino, h1, h2, h3]

theorem no_fallback_on_missing_file_witness :
    convert_to_openvino convEnvNoFile = (none, [.convert, .save true]) ∧
    ConvEff.readModel ∉ (convert_to_openvino convEnvNoFile).2 :=
  no_fallback_on_missing_file convEnvNoFile ⟨shapeDyn⟩ rfl rfl rfl

/-- **C4.** The step-by-step fallback runs only when the primary path
raises (either the direct conversion or its fp16 save); the primary path
persists with fp16 compression and never re-reads the graph, while the
fallback re-reads the graph with the runtime's reader, marks input axes 2
and 3 dynamic when they are not both dynamic already, and persists with
compression disabled. -/
theorem two_path_compilation (env : ConvEnv) :
    (∀ m, env.convert = .ok m → env.savePrimary m = .ok () →
      (convert_to_openvino env).2 = [.convert, .save true]) ∧
    (ConvEff.readModel ∈ (convert_to_openvino env).2 →
      (∃ e, env.convert = .error e) ∨
      (∃ m e, env.convert = .ok m ∧ env.savePrimary m = .error e)) ∧
    (∀ m, env.readModel = .ok m →
      (((dimAt m.inputShape 2).isDynamic ∧ (dimAt m.inputShape 3).isDynamic) →
        (convert_step_by_step env).2 = [.readModel, .save false]) ∧
      (¬((dimAt m.inputShape 2).isDynamic ∧
          (dimAt m.inputShape 3).isDynamic) →
        (convert_step_by_step env).2 =
          [.readModel, .reshape (setDynamicHW m.inputShape), .save false])) := by
  refine ⟨?_, ?_, ?_⟩
  · intro m h1 h2
    simp [convert_to_openvino, h1, h2]
  · intro hmem
    rcases h1 : env.convert with e | m
    · exact Or.inl ⟨e, rfl⟩
    · rcases h2 : env.savePrimary m with e | u
      · exact Or.inr ⟨m, e, rfl, h2⟩
      · obtain ⟨⟩ := u
        simp [convert_to_openvino, h1, h2] at hmem
  · intro m hm
    constructor
    · intro hd
      rcases hs : env.saveStep m with e | u <;>
        simp [convert_step_by_step, hm, hd, hs]
    · intro hd
      rcases hs : env.saveStep ⟨setDynamicHW m.inputShape⟩ with e | u <;>
        simp [convert_step_by_step, hm, hd, hs]

/-- **C1, counterexample.** The 65×64 image `img65` is brought to 64×64
(dimensions as claimed), but the pixel content is *not* the corresponding
sub-region of the original: `cv2.resize` rescales, so output pixel
`(63, 0)` interpolates source rows 63 and 64 and comes out 253, while the
sub-region's pixel — the original pixel `(63, 0)` — is 0. -/
theorem shape_normalization_counterexample :
    (normalizeShape img65).h = 64 ∧ (normalizeShape img65).w = 64 ∧
    img65.px 63 0 0 = 0 ∧ (normalizeShape img65).px 63 0 0 = 253 := by
  have hn : normalizeShape img65 = cv2resize img65 64 64 := by
    norm_num [normalizeShape, img65]
  refine ⟨by rw [hn]; rfl, by rw [hn]; rfl, by norm_num [img65], ?_⟩
  have hfy : srcCoord 63 65 64 = 8191/128 := by norm_num [srcCoord]
  have hfx : srcCoord 0 64 64 = 0 := by norm_num [srcCoord]
  have hfl : (⌊(8191:ℚ)/128⌋ : ℤ) = 63 := by
    rw [Int.floor_eq_iff]; norm_num
  have hfl2 : (⌊(32449:ℚ)/128⌋ : ℤ) = 253 := by
    rw [Int.floor_eq_iff]; norm_num
  rw [hn]
  show resample img65 0 (srcCoord 63 65 64) (srcCoord 0 64 64) = 253
  rw [hfy, hfx]
  norm_num [resample, clampIdx, roundClamp255, hfl, img65]
  rw [if_neg (by decide : ¬ ((63:ℤ).toNat = 64)),
    if_pos (by decide : (64:ℤ).toNat = 64)]
  norm_num [hfl2]
  decide

/-- **C1, amended.** The shape-normalization step brings every ingested
image to height `(h // 64) * 64` and width `(w // 64) * 64` by *rescaling*
it with `cv2.resize` (interpolation, not a crop: the pixel content is a
resampling of the whole image, not the corresponding sub-region), and
when `h` and `w` are already multiples of 64 the image is left entirely
unchanged, with no resize applied. -/
theorem shape_normalization (img : Image) :
    (normalizeShape img).h = img.h / 64 * 64 ∧
    (normalizeShape img).w = img.w / 64 * 64 ∧
    (img.h % 64 = 0 → img.w % 64 = 0 → normalizeShape img = img) ∧
    (¬(img.h % 64 = 0 ∧ img.w % 64 = 0) →
      normalizeShape img = cv2resize img (img.w / 64 * 64) (img.h / 64 * 64)) := by
  have key : (img.h / 64 * 64 ≠ img.h ∨ img.w / 64 * 64 ≠ img.w) ↔
      ¬(img.h % 64 = 0 ∧ img.w % 64 = 0) := by omega
  by_cases hc : img.h % 64 = 0 ∧ img.w % 64 = 0
  · have h1 : img.h / 64 * 64 = img.h := by omega
    have h2 : img.w / 64 * 64 = img.w := by omega
    have hid : normalizeShape img = img := by
      simp only [normalizeShape]
      rw [if_neg (fun c => (key.mp c) hc)]
    exact ⟨by rw [hid, h1], by rw [hid, h2],
      fun _ _ => hid, fun hn => absurd hc hn⟩
  · have hrs : normalizeShape img =
        cv2resize img (img.w / 64 * 64) (img.h / 64 * 64) := by
      simp only [normalizeShape]
      rw [if_pos (key.mpr hc)]
    exact ⟨by rw [hrs]; rfl, by rw [hrs]; rfl,
      fun ha hb => absurd ⟨ha, hb⟩ hc, fun _ => hrs⟩

/-- **C3.** When the device enumeration does not contain `"GPU"`, the
executor returns failure with an empty effect trace: the compiled IR is
never read, nothing is compiled for any device, and no output file is
written. -/
theorem gpu_fail_closed (env : RunEnv) (h : "GPU" ∉ env.devices) :
    run_gpu_inference env = ⟨false, [], none, none⟩ := by
  simp [run_gpu_inference, h]

theorem gpu_fail_closed_witness :
    run_gpu_inference runEnvNoGpu = ⟨false, [], none, none⟩ :=
  gpu_fail_closed runEnvNoGpu (by decide)

/-- **C7.** Postprocessing removes the leading batch dimension, transposes
the `(1, C, H, W)` result to `(H, W, C)` layout, multiplies by 255, clamps
into `[0, 255]` and quantizes to 8-bit, so every pixel of the output image
lies in `0..255`. -/
theorem postprocess_range (t : Tensor4) :
    (postprocess t).h = t.h ∧ (postprocess t).w = t.w ∧
    ∀ y x c,
      (postprocess t).px y x c =
        toUint8 (npClip 0 255 (t.data 0 c y x * 255)) ∧
      (postprocess t).px y x c ≤ 255 := by
  refine ⟨rfl, rfl, fun y x c => ⟨rfl, ?_⟩⟩
  show toUint8 (npClip 0 255 (npTranspose120 (npSqueeze0 t) y x c * 255)) ≤ 255
  unfold toUint8 npClip
  have h1 : min (max (npTranspose120 (npSqueeze0 t) y x c * 255) 0) 255
      ≤ (255 : ℚ) := min_le_right _ _
  have h2 : (⌊min (max (npTranspose120 (npSqueeze0 t) y x c * 255) 0) 255⌋ : ℤ)
      ≤ 255 := by
    calc (⌊min (max (npTranspose120 (npSqueeze0 t) y x c * 255) 0) 255⌋ : ℤ)
        ≤ ⌊(255 : ℚ)⌋ := Int.floor_le_floor h1
      _ = 255 := by simp
  exact Int.toNat_le.mpr h2

/-- **C5.** When the input image cannot be read, the executor neither
raises nor fails at the ingest step: it behaves exactly as if it had read
the synthetically generated placeholder (`cv2.putText` over a 256×256
zero image), and with the rest of the runtime succeeding the whole
pipeline completes with success. -/
theorem unreadable_input_placeholder (env : RunEnv) (h : env.imread = none) :
    run_gpu_inference env =
      run_gpu_inference
        { env with imread := some (env.putText (Image.zeros 256 256)) } ∧
    ("GPU" ∈ env.devices → ∀ m, env.readModel = .ok m →
      (∀ m', env.compile m' "GPU" = .ok ()) →
      (∀ t, ∃ r, env.infer t = .ok r) →
      (run_gpu_inference env).success = true) := by
  constructor
  · simp only [run_gpu_inference, h]
  · intro hG m hm hc hi
    obtain ⟨r, hr⟩ :=
      hi (preprocess (normalizeShape (env.putText (Image.zeros 256 256))))
    simp [run_gpu_inference, h, hG, hm, hc, hr]

theorem unreadable_input_placeholder_witness :
    (run_gpu_inference runEnvOk =
      run_gpu_inference
        { runEnvOk with
          imread := some (runEnvOk.putText (Image.zeros 256 256)) }) ∧
    ("GPU" ∈ runEnvOk.devices → ∀ m, runEnvOk.readModel = .ok m →
      (∀ m', runEnvOk.compile m' "GPU" = .ok ()) →
      (∀ t, ∃ r, runEnvOk.infer t = .ok r) →
      (run_gpu_inference runEnvOk).success = true) :=
  unreadable_input_placeholder runEnvOk rfl

/-- **C8.** Every successful execution of the executor emits a timing
record whose stages are exactly the eleven named ones — image load,
resize, preprocess, shape reconciliation, config, compile, inference,
result extraction, postprocess, save, total — in that order, and with a
monotone wall clock every recorded duration is non-negative. -/
theorem timing_record (env : RunEnv) (hmono : Monotone env.clock)
    (rec : List (String × ℚ))
    (h : (run_gpu_inference env).timings = some rec) :
    rec.map Prod.fst = stageNames ∧ ∀ p ∈ rec, 0 ≤ p.2 := by
  unfold run_gpu_inference at h
  split at h
  · split at h
    · simp at h
    · split at h
      all_goals (
        dsimp only at h
        split at h
        · simp at h
        · split at h
          · simp at h
          · simp only [Option.some.injEq] at h
            subst h
            refine ⟨rfl, ?_⟩
            intro p hp
            simp only [List.mem_cons, List.not_mem_nil, or_false] at hp
            rcases hp with rfl|rfl|rfl|rfl|rfl|rfl|rfl|rfl|rfl|rfl|rfl <;>
              exact sub_nonneg.mpr (hmono (by norm_num)))
  · simp at h

theorem timing_record_witness :
    recZero.map Prod.fst = stageNames ∧ ∀ p ∈ recZero, 0 ≤ p.2 :=
  timing_record runEnvOk monotone_const recZero
    (by norm_num [run_gpu_inference, runEnvOk, runEnvNoGpu, recZero])

end RunFp32
